import Mathlib

/-!
Shallow embedding of the spectral-to-tristimulus and chromatic-adaptation
core of the `colour` repository (file `colour_vectorise.py` and
`colour/difference/delta_e.py`), over exact rationals (reals where a square
root occurs).  Machine floats are modelled by exact field arithmetic;
`numpy` division by zero, which the sources suppress via
`handle_numpy_errors`, maps to Lean's total division (`x / 0 = 0` never
selected by the guarded branches that matter here).
-/

namespace Colour

/-- Row of three rational components, used for XYZ / RGB / Lab / xyY rows
of the `(-1, 3)`-reshaped arrays of `colour_vectorise.py`. -/
structure Vec3 where
  x : ℚ
  y : ℚ
  z : ℚ
deriving DecidableEq, Repr

/-- Matrix of three rows, the `(3, 3)` arrays of the source. -/
structure Mat3 where
  r0 : Vec3
  r1 : Vec3
  r2 : Vec3
deriving DecidableEq, Repr

/-- Dot product of two rows. -/
def dot3 (a b : Vec3) : ℚ :=
  a.x * b.x + a.y * b.y + a.z * b.z

/-- Matrix-vector product; this is the einsum pattern
`np.einsum('...i,...ji', v, M)` (and equally `np.dot(v, M.T)`) used
throughout the source: each output component is a row of `M` dotted with
`v`. -/
def mulVec (M : Mat3) (v : Vec3) : Vec3 :=
  ⟨dot3 M.r0 v, dot3 M.r1 v, dot3 M.r2 v⟩

/-- Matrix-matrix product, the einsum pattern
`np.einsum('...ij,...jk->...ik', A, B)` of the source. -/
def mulMat (A B : Mat3) : Mat3 :=
  ⟨⟨dot3 A.r0 ⟨B.r0.x, B.r1.x, B.r2.x⟩,
    dot3 A.r0 ⟨B.r0.y, B.r1.y, B.r2.y⟩,
    dot3 A.r0 ⟨B.r0.z, B.r1.z, B.r2.z⟩⟩,
   ⟨dot3 A.r1 ⟨B.r0.x, B.r1.x, B.r2.x⟩,
    dot3 A.r1 ⟨B.r0.y, B.r1.y, B.r2.y⟩,
    dot3 A.r1 ⟨B.r0.z, B.r1.z, B.r2.z⟩⟩,
   ⟨dot3 A.r2 ⟨B.r0.x, B.r1.x, B.r2.x⟩,
    dot3 A.r2 ⟨B.r0.y, B.r1.y, B.r2.y⟩,
    dot3 A.r2 ⟨B.r0.z, B.r1.z, B.r2.z⟩⟩⟩

/-- Determinant of a 3x3 matrix, used to embed `np.linalg.inv`. -/
def det3 (M : Mat3) : ℚ :=
  M.r0.x * (M.r1.y * M.r2.z - M.r1.z * M.r2.y) -
  M.r0.y * (M.r1.x * M.r2.z - M.r1.z * M.r2.x) +
  M.r0.z * (M.r1.x * M.r2.y - M.r1.y * M.r2.x)

/-- Exact 3x3 matrix inverse (adjugate over determinant), embedding the
`np.linalg.inv(M)` call of
`chromatic_adaptation_matrix_VonKries_vectorise`. -/
def inv3 (M : Mat3) : Mat3 :=
  let d := det3 M
  ⟨⟨(M.r1.y * M.r2.z - M.r1.z * M.r2.y) / d,
    (M.r0.z * M.r2.y - M.r0.y * M.r2.z) / d,
    (M.r0.y * M.r1.z - M.r0.z * M.r1.y) / d⟩,
   ⟨(M.r1.z * M.r2.x - M.r1.x * M.r2.z) / d,
    (M.r0.x * M.r2.z - M.r0.z * M.r2.x) / d,
    (M.r0.z * M.r1.x - M.r0.x * M.r1.z) / d⟩,
   ⟨(M.r1.x * M.r2.y - M.r1.y * M.r2.x) / d,
    (M.r0.y * M.r2.x - M.r0.x * M.r2.y) / d,
    (M.r0.x * M.r1.y - M.r0.y * M.r1.x) / d⟩⟩

/-- Diagonal matrix from a row, embedding `row_as_diagonal(D)`. -/
def diag3 (v : Vec3) : Mat3 :=
  ⟨⟨v.x, 0, 0⟩, ⟨0, v.y, 0⟩, ⟨0, 0, v.z⟩⟩

/-- Componentwise quotient of rows, embedding `rgb_wr / rgb_w`. -/
def vdiv (a b : Vec3) : Vec3 :=
  ⟨a.x / b.x, a.y / b.y, a.z / b.z⟩

/-- Componentwise product of rows, embedding elementwise `*` on
`(-1, 3)` arrays. -/
def vmul (a b : Vec3) : Vec3 :=
  ⟨a.x * b.x, a.y * b.y, a.z * b.z⟩

/-- Embedding of `xyY_to_XYZ_vectorise` on one row: with `y == 0` the
source stacks `(y, y, y)` (the zero row), otherwise
`(x * Y / y, Y, (1 - x - y) * Y / y)`; the `np.where` selection and the
`handle_numpy_errors(divide='ignore')` decorator become a plain
conditional over total rational division (fields `x`, `y`, `z` of the
argument hold `x`, `y`, `Y`). -/
def xyY_to_XYZ_vectorise (xyY : Vec3) : Vec3 :=
  if xyY.y = 0 then
    ⟨xyY.y, xyY.y, xyY.y⟩
  else
    ⟨xyY.x * xyY.z / xyY.y, xyY.z, (1 - xyY.x - xyY.y) * xyY.z / xyY.y⟩

/-- Embedding of `xy_to_XYZ_vectorise`: stacks `(x, y, 1)` and feeds it to
`xyY_to_XYZ_vectorise`. -/
def xy_to_XYZ_vectorise (xy : ℚ × ℚ) : Vec3 :=
  xyY_to_XYZ_vectorise ⟨xy.1, xy.2, 1⟩

/-- Embedding of `XYZ_to_xyY_vectorise` on one row: the `np.where` applies
the `== 0` test elementwise, choosing per component between the stacked
substitute row `(illuminant_x, illuminant_y, Y)` and the computed row
`(X / (X + Y + Z), Y / (X + Y + Z), Y)` (decorator
`handle_numpy_errors(divide='ignore', invalid='ignore')` maps to total
division). -/
def XYZ_to_xyY_vectorise (XYZ : Vec3) (illuminant : ℚ × ℚ) : Vec3 :=
  let s := XYZ.x + XYZ.y + XYZ.z
  let substitute : Vec3 := ⟨illuminant.1, illuminant.2, XYZ.y⟩
  let computed : Vec3 := ⟨XYZ.x / s, XYZ.y / s, XYZ.y⟩
  ⟨if XYZ.x = 0 then substitute.x else computed.x,
   if XYZ.y = 0 then substitute.y else computed.y,
   if XYZ.z = 0 then substitute.z else computed.z⟩

/-- Modelled from the spec: the default illuminant argument of
`XYZ_to_xyY_vectorise`, the D50 chromaticity of the CIE 1931 2 Degree
Standard Observer from the `ILLUMINANTS` registry (dataset module outside
`src/`; the spec treats illuminant datasets as read-only published
tables). -/
def ILLUMINANTS_D50 : ℚ × ℚ := (0.34567, 0.35850)

/-- Error raised for an unknown registry key; the spec's `ConfigError`
taxonomy entry, realised in
`chromatic_adaptation_matrix_VonKries_vectorise` as a `KeyError` whose
message carries the attempted name and the registry's valid names. -/
structure ConfigError where
  name : String
  validNames : List String
deriving DecidableEq, Repr

/-- Modelled from the spec: the `CHROMATIC_ADAPTATION_TRANSFORMS` registry
(module `colour.adaptation.vonkries`, outside `src/`): named 3x3
cone-response matrices, looked up case-insensitively; the spec names
"CAT02", "Bradford" and "Von Kries" as registered transforms, with the
published reference constants. -/
def CHROMATIC_ADAPTATION_TRANSFORMS : List (String × Mat3) :=
  [("CAT02",
    ⟨⟨0.7328, 0.4296, -0.1624⟩,
     ⟨-0.7036, 1.6975, 0.0061⟩,
     ⟨0.0030, 0.0136, 0.9834⟩⟩),
   ("Bradford",
    ⟨⟨0.8951, 0.2664, -0.1614⟩,
     ⟨-0.7502, 1.7135, 0.0367⟩,
     ⟨0.0389, -0.0685, 1.0296⟩⟩),
   ("Von Kries",
    ⟨⟨0.40024, 0.7076, -0.08081⟩,
     ⟨-0.2263, 1.16532, 0.0457⟩,
     ⟨0, 0, 0.91822⟩⟩)]

/-- Lower-casing of an ASCII code point, the comparison key of the
`CaseInsensitiveMapping` holding the registry. -/
def lowerCode (n : Nat) : Nat :=
  if 65 ≤ n ∧ n ≤ 90 then n + 32 else n

/-- Case-insensitive comparison key of a name (its lower-cased code
points). -/
def caseKey (s : String) : List Nat :=
  s.data.map fun c => lowerCode c.toNat

/-- Case-insensitive registry lookup
(`CHROMATIC_ADAPTATION_TRANSFORMS.get(transform)` on the
`CaseInsensitiveMapping`). -/
def lookupTransform (name : String) : Option Mat3 :=
  (CHROMATIC_ADAPTATION_TRANSFORMS.find? fun p =>
    caseKey p.1 == caseKey name).map Prod.snd

/-- Names enumerated in the unknown-transform error message
(`CHROMATIC_ADAPTATION_TRANSFORMS.keys()`). -/
def registeredTransformNames : List String :=
  CHROMATIC_ADAPTATION_TRANSFORMS.map Prod.fst

/-- Embedding of `chromatic_adaptation_matrix_VonKries_vectorise` for one
pair of white points: looks the transform matrix up by name (failing, with
the valid names enumerated, before any array computation), projects both
whites into cone-response space, forms the diagonal ratio matrix and
returns `inv(M) . D . M`. -/
def chromatic_adaptation_matrix_VonKries_vectorise
    (XYZ_w XYZ_wr : Vec3) (transform : String) : Except ConfigError Mat3 :=
  match lookupTransform transform with
  | none => .error ⟨transform, registeredTransformNames⟩
  | some M =>
    let rgb_w := mulVec M XYZ_w
    let rgb_wr := mulVec M XYZ_wr
    let D := vdiv rgb_wr rgb_w
    .ok (mulMat (mulMat (inv3 M) (diag3 D)) M)

/-- N-dimensional array: a shape together with the row-major flat data,
the contiguous-`ndarray` picture under which `np.reshape` only rewrites
the shape. -/
structure NDArr where
  shape : List Nat
  data : List ℚ
deriving DecidableEq, Repr

/-- Rows of three of a flat list: the `as_array(XYZ, (-1, 3))` reshape
(defined on lengths divisible by three, the case the shape contract
admits). -/
def rows3 : List ℚ → List Vec3
  | a :: b :: c :: rest => ⟨a, b, c⟩ :: rows3 rest
  | _ => []

/-- Flattening rows of three back into row-major data. -/
def flatten3 : List Vec3 → List ℚ
  | [] => []
  | v :: rest => v.x :: v.y :: v.z :: flatten3 rest

/-- Embedding of `XYZ_to_RGB_vectorise`: records the incoming shape,
reshapes to `(-1, 3)`, derives the von Kries adaptation matrix between
the two white points, adapts and projects every row
(`np.einsum('...i,...ji', v, M)`), optionally applies the transfer
function elementwise, and reshapes back to the incoming shape. -/
def XYZ_to_RGB_vectorise (XYZ : NDArr) (illuminant_XYZ illuminant_RGB : ℚ × ℚ)
    (XYZ_to_RGB_matrix : Mat3) (chromatic_adaptation_transform : String)
    (transfer_function : Option (ℚ → ℚ)) : Except ConfigError NDArr :=
  match chromatic_adaptation_matrix_VonKries_vectorise
      (xy_to_XYZ_vectorise illuminant_XYZ)
      (xy_to_XYZ_vectorise illuminant_RGB)
      chromatic_adaptation_transform with
  | .error e => .error e
  | .ok M =>
    let RGB := (rows3 XYZ.data).map fun v =>
      mulVec XYZ_to_RGB_matrix (mulVec M v)
    let RGB : List Vec3 := match transfer_function with
      | none => RGB
      | some tf => RGB.map fun v => ⟨tf v.x, tf v.y, tf v.z⟩
    .ok ⟨XYZ.shape, flatten3 RGB⟩

/-- Embedding of `RGB_to_XYZ_vectorise`, the structural mirror: optional
inverse transfer first, then the matrix projection, then the adaptation
from the RGB white to the XYZ white, reshaped back to the incoming
shape. -/
def RGB_to_XYZ_vectorise (RGB : NDArr) (illuminant_RGB illuminant_XYZ : ℚ × ℚ)
    (RGB_to_XYZ_matrix : Mat3) (chromatic_adaptation_transform : String)
    (inverse_transfer_function : Option (ℚ → ℚ)) : Except ConfigError NDArr :=
  let rows := rows3 RGB.data
  let rows : List Vec3 := match inverse_transfer_function with
    | none => rows
    | some itf => rows.map fun v => ⟨itf v.x, itf v.y, itf v.z⟩
  let XYZ := rows.map fun v => mulVec RGB_to_XYZ_matrix v
  match chromatic_adaptation_matrix_VonKries_vectorise
      (xy_to_XYZ_vectorise illuminant_RGB)
      (xy_to_XYZ_vectorise illuminant_XYZ)
      chromatic_adaptation_transform with
  | .error e => .error e
  | .ok M =>
    .ok ⟨RGB.shape, flatten3 (XYZ.map fun v => mulVec M v)⟩

/-- Modelled from the spec: the `CIE_E` constant of `colour.constants.cie`
(outside `src/`), the published CIE value 216/24389 used by the Lab
conversions. -/
def CIE_E : ℚ := 216 / 24389

/-- Modelled from the spec: the `CIE_K` constant of `colour.constants.cie`
(outside `src/`), the published CIE value 24389/27. -/
def CIE_K : ℚ := 24389 / 27

/-- One row of `Lab_to_XYZ_vectorise`: the `f_x`, `f_y`, `f_z` pivots and
the three `np.where` branch selections, scaled by the reference white `XYZ_r`
(fields `x`, `y`, `z` hold `L`, `a`, `b`). -/
def Lab_to_XYZ_row (Lab : Vec3) (XYZ_r : Vec3) : Vec3 :=
  let f_y := (Lab.x + 16) / 116
  let f_x := Lab.y / 500 + f_y
  let f_z := f_y - Lab.z / 200
  let x_r := if f_x ^ 3 > CIE_E then f_x ^ 3 else (116 * f_x - 16) / CIE_K
  let y_r := if Lab.x > CIE_K * CIE_E then ((Lab.x + 16) / 116) ^ 3 else Lab.x / CIE_K
  let z_r := if f_z ^ 3 > CIE_E then f_z ^ 3 else (116 * f_z - 16) / CIE_K
  vmul ⟨x_r, y_r, z_r⟩ XYZ_r

/-- Embedding of `Lab_to_XYZ_vectorise`: reshapes to `(-1, 3)`, converts
the illuminant chromaticity to XYZ (resized against every row), applies
the rowwise conversion and reshapes back to the incoming shape. -/
def Lab_to_XYZ_vectorise (Lab : NDArr) (illuminant : ℚ × ℚ) : NDArr :=
  let XYZ_r := xy_to_XYZ_vectorise illuminant
  ⟨Lab.shape, flatten3 ((rows3 Lab.data).map fun v => Lab_to_XYZ_row v XYZ_r)⟩

/-- Spectral power distribution: a name and the wavelength-to-value
mapping (the Python `dict`, embedded as an association list whose keys
are unique). -/
structure SpectralPowerDistribution where
  name : String
  data : List (ℚ × ℚ)
deriving DecidableEq, Repr

/-- Dictionary lookup `self.data.__getitem__(wavelength)`, `none` standing
for the `KeyError` path. -/
def dictGet (data : List (ℚ × ℚ)) (wavelength : ℚ) : Option ℚ :=
  (data.find? fun p => p.1 == wavelength).map Prod.snd

/-- Insertion into a list sorted by wavelength. -/
def insertByWavelength (p : ℚ × ℚ) : List (ℚ × ℚ) → List (ℚ × ℚ)
  | [] => [p]
  | q :: rest =>
    if p.1 ≤ q.1 then p :: q :: rest else q :: insertByWavelength p rest

/-- Sorting the mapping by ascending wavelength: the order in which the
`wavelengths` and `values` properties expose the data. -/
def sortByWavelength : List (ℚ × ℚ) → List (ℚ × ℚ)
  | [] => []
  | p :: rest => insertByWavelength p (sortByWavelength rest)

/-- The `values` property: values parallel to the ascending wavelengths. -/
def SPD_values (spd : SpectralPowerDistribution) : List ℚ :=
  (sortByWavelength spd.data).map Prod.snd

/-- The `wavelengths` property: ascending wavelengths. -/
def SPD_wavelengths (spd : SpectralPowerDistribution) : List ℚ :=
  (sortByWavelength spd.data).map Prod.fst

/-- Python index normalisation for a slice bound with step one: a negative
index counts from the end, and the result is clamped to `[0, n]`. -/
def clampIndex (i : Int) (n : Nat) : Nat :=
  if i < 0 then (i + n).toNat else min i.toNat n

/-- Python list slicing `l[a:b]` with step one (`none` bounds default to
the ends). -/
def pySlice (l : List ℚ) (a b : Option Int) : List ℚ :=
  let start := match a with
    | none => 0
    | some i => clampIndex i l.length
  let stop := match b with
    | none => l.length
    | some i => clampIndex i l.length
  (l.drop start).take (stop - start)

/-- The three index species Python dispatches on in
`SpectralPowerDistribution__getitem__`: a numeric, an iterable of
numerics, or a slice. -/
inductive SpdIndex where
  | num : ℚ → SpdIndex
  | iter : List ℚ → SpdIndex
  | slice : Option Int → Option Int → SpdIndex
deriving DecidableEq, Repr

/-- Result of indexing: a scalar for a numeric index, an array
otherwise. -/
inductive SpdValue where
  | scalar : ℚ → SpdValue
  | array : List ℚ → SpdValue
deriving DecidableEq, Repr

/-- The comprehension
`[self.data.__getitem__(x) for x in wavelength]`: dictionary accesses in
order, stopping at the first missing key (`KeyError`). -/
def dictGetAll (data : List (ℚ × ℚ)) : List ℚ → Except ℚ (List ℚ)
  | [] => .ok []
  | w :: ws =>
    match dictGet data w with
    | some v => (dictGetAll data ws).map fun vs => v :: vs
    | none => .error w

/-- Embedding of `SpectralPowerDistribution__getitem__`: a numeric index
is a dictionary access by wavelength (a missing key is the `KeyError`
path, `Except.error` carrying the key); an iterable maps the dictionary
access over its elements; a slice indexes into the ordered `values`
sequence by position. -/
def SpectralPowerDistribution__getitem__
    (spd : SpectralPowerDistribution) : SpdIndex → Except ℚ SpdValue
  | .num w =>
    match dictGet spd.data w with
    | some v => .ok (.scalar v)
    | none => .error w
  | .iter ws => (dictGetAll spd.data ws).map .array
  | .slice a b => .ok (.array (pySlice (SPD_values spd) a b))

/-- Spectral shape of tabulated data: the `start` and `end` bounds used by
the domain check of `wavelength_to_XYZ_vectorise` (`end` is a reserved
word in Lean). -/
structure SpectralShape where
  start : ℚ
  end_ : ℚ
deriving DecidableEq, Repr

/-- Colour-matching functions as consumed by
`wavelength_to_XYZ_vectorise`: the tabulated shape topped by the exact
sample mapping, and the interpolated evaluation. The interpolators
(`SpragueInterpolator` / `SplineInterpolator`, module `colour.algebra`
outside `src/`) are modelled from the spec as a total evaluation
function. -/
structure TriSpectralPowerDistribution where
  shape : SpectralShape
  wavelengths : List ℚ
  get : ℚ → Vec3
  interpolate : ℚ → Vec3

/-- Domain error of the tristimulus path: the offending wavelength array
and the domain bounds, exactly the data interpolated into the message
`'"{0} nm" wavelength is not in "[{1}, {2}]" domain!'`. -/
structure DomainError where
  wavelength : List ℚ
  low : ℚ
  high : ℚ

/-- Minimum of a wavelength array (`np.min`, meaningful on nonempty
input). -/
def listMin (l : List ℚ) : ℚ := l.foldl min (l.headD 0)

/-- Maximum of a wavelength array (`np.max`, meaningful on nonempty
input). -/
def listMax (l : List ℚ) : ℚ := l.foldl max (l.headD 0)

/-- Embedding of `wavelength_to_XYZ_vectorise`: raises the domain error
when the minimum queried wavelength is below the shape start or the
maximum is above the shape end; otherwise evaluates the colour-matching
functions, by exact sample access when every wavelength is a tabulated
key and through the interpolators otherwise. -/
def wavelength_to_XYZ_vectorise (wavelength : List ℚ)
    (cmfs : TriSpectralPowerDistribution) : Except DomainError (List Vec3) :=
  if listMin wavelength < cmfs.shape.start ∨ listMax wavelength > cmfs.shape.end_ then
    .error ⟨wavelength, cmfs.shape.start, cmfs.shape.end_⟩
  else if ¬ wavelength.all (cmfs.wavelengths.contains ·) then
    .ok (wavelength.map cmfs.interpolate)
  else
    .ok (wavelength.map cmfs.get)

/-- Low-temperature branch of `CCT_to_xy_CIE_D_vectorise` (the polynomial
selected for `CCT <= 7000`). -/
def CCT_to_xy_CIE_D_xLow (CCT : ℚ) : ℚ :=
  -4.607 * 10 ^ 9 / CCT ^ 3 + 2.9678 * 10 ^ 6 / CCT ^ 2 +
    0.09911 * 10 ^ 3 / CCT + 0.244063

/-- High-temperature branch of `CCT_to_xy_CIE_D_vectorise` (the
polynomial selected for `CCT > 7000`). -/
def CCT_to_xy_CIE_D_xHigh (CCT : ℚ) : ℚ :=
  -2.0064 * 10 ^ 9 / CCT ^ 3 + 1.9018 * 10 ^ 6 / CCT ^ 2 +
    0.24748 * 10 ^ 3 / CCT + 0.23704

/-- Embedding of `CCT_to_xy_CIE_D_vectorise` on one element: the
`np.where(CCT <= 7000, ...)` branch selection for `x`, and
`y = -3 x^2 + 2.87 x - 0.275` (the out-of-`[4000, 25000]` warning only
warns and proceeds, so it does not appear in the value). -/
def CCT_to_xy_CIE_D_vectorise (CCT : ℚ) : ℚ × ℚ :=
  let x := if CCT ≤ 7000 then CCT_to_xy_CIE_D_xLow CCT else CCT_to_xy_CIE_D_xHigh CCT
  (x, -3 * x ^ 2 + 2.87 * x - 0.275)

/-- Embedding of `delta_E_CIE1994_vectorise` (file
`colour_vectorise.py`) on one pair of Lab rows, over the reals since the
formula takes square roots; the Python default of its `textiles`
parameter is `True`. -/
noncomputable def delta_E_CIE1994_vectorise (Lab1 Lab2 : ℝ × ℝ × ℝ)
    (textiles : Bool) : ℝ :=
  let k1 : ℝ := if textiles then 0.048 else 0.045
  let k2 : ℝ := if textiles then 0.014 else 0.015
  let kL : ℝ := if textiles then 2 else 1
  let kC : ℝ := 1
  let kH : ℝ := 1
  let C1 := Real.sqrt (Lab1.2.1 ^ 2 + Lab1.2.2 ^ 2)
  let C2 := Real.sqrt (Lab2.2.1 ^ 2 + Lab2.2.2 ^ 2)
  let sL : ℝ := 1
  let sC := 1 + k1 * C1
  let sH := 1 + k2 * C1
  let delta_L := Lab1.1 - Lab2.1
  let delta_C := C1 - C2
  let delta_A := Lab1.2.1 - Lab2.2.1
  let delta_B := Lab1.2.2 - Lab2.2.2
  let delta_H := Real.sqrt (delta_A ^ 2 + delta_B ^ 2 - delta_C ^ 2)
  let L := (delta_L / (kL * sL)) ^ 2
  let C := (delta_C / (kC * sC)) ^ 2
  let H := (delta_H / (kH * sH)) ^ 2
  Real.sqrt (L + C + H)

/-- Embedding of the reference `delta_E_CIE1994` (file
`colour/difference/delta_e.py`) on one pair of Lab arrays; the Python
default of its `textiles` parameter is `False`. -/
noncomputable def delta_E_CIE1994 (Lab_1 Lab_2 : ℝ × ℝ × ℝ)
    (textiles : Bool) : ℝ :=
  let k_1 : ℝ := if textiles then 0.048 else 0.045
  let k_2 : ℝ := if textiles then 0.014 else 0.015
  let k_L : ℝ := if textiles then 2 else 1
  let k_C : ℝ := 1
  let k_H : ℝ := 1
  let C_1 := Real.sqrt (Lab_1.2.1 ^ 2 + Lab_1.2.2 ^ 2)
  let C_2 := Real.sqrt (Lab_2.2.1 ^ 2 + Lab_2.2.2 ^ 2)
  let s_L : ℝ := 1
  let s_C := 1 + k_1 * C_1
  let s_H := 1 + k_2 * C_1
  let delta_L := Lab_1.1 - Lab_2.1
  let delta_C := C_1 - C_2
  let delta_A := Lab_1.2.1 - Lab_2.2.1
  let delta_B := Lab_1.2.2 - Lab_2.2.2
  let delta_H := Real.sqrt (delta_A ^ 2 + delta_B ^ 2 - delta_C ^ 2)
  let L := (delta_L / (k_L * s_L)) ^ 2
  let C := (delta_C / (k_C * s_C)) ^ 2
  let H := (delta_H / (k_H * s_H)) ^ 2
  Real.sqrt (L + C + H)

/-- Call of `delta_E_CIE1994_vectorise` with its Python default arguments
(`textiles=True`). -/
noncomputable def delta_E_CIE1994_vectorise_default (Lab1 Lab2 : ℝ × ℝ × ℝ) : ℝ :=
  delta_E_CIE1994_vectorise Lab1 Lab2 true

/-- Call of the reference `delta_E_CIE1994` with its Python default
arguments (`textiles=False`). -/
noncomputable def delta_E_CIE1994_default (Lab_1 Lab_2 : ℝ × ℝ × ℝ) : ℝ :=
  delta_E_CIE1994 Lab_1 Lab_2 false

/-! Concrete data of the spec's testable properties. -/

/-- The test tristimulus row `[0.07049534, 0.1008, 0.09558313]` as a
rank-one array. -/
def XYZ_testRow : NDArr := ⟨[3], [0.07049534, 0.1008, 0.09558313]⟩

/-- White point `W1 = (0.34567, 0.35850)` of the round-trip property. -/
def W1 : ℚ × ℚ := (0.34567, 0.35850)

/-- White point `W2 = (0.31271, 0.32902)` of the round-trip property. -/
def W2 : ℚ × ℚ := (0.31271, 0.32902)

/-- The `M` constant preceding `XYZ_to_RGB_analysis` in the source: the
published sRGB XYZ-to-RGB matrix. -/
def M_XYZ_to_RGB : Mat3 :=
  ⟨⟨3.24100326, -1.53739899, -0.49861587⟩,
   ⟨-0.96922426, 1.87592999, 0.04155422⟩,
   ⟨0.05563942, -0.2040112, 1.05714897⟩⟩

/-- The `M` constant preceding `RGB_to_XYZ_analysis` in the source: the
published sRGB RGB-to-XYZ matrix, the (floating-point rounded) inverse of
`M_XYZ_to_RGB`. -/
def M_RGB_to_XYZ : Mat3 :=
  ⟨⟨0.41238656, 0.35759149, 0.18045049⟩,
   ⟨0.21263682, 0.71518298, 0.0721802⟩,
   ⟨0.01933062, 0.11919716, 0.95037259⟩⟩

/-- Componentwise closeness of two data lists within a tolerance, the
`np.testing.assert_almost_equal` picture of the spec's ≈. -/
def allClose (a b : List ℚ) (tol : ℚ) : Bool :=
  a.length == b.length && ((a.zip b).all fun p => |p.1 - p.2| < tol)

/-- The SPD of the exact-sample-lookup property, built from the mapping
`{510: 49.67, 520: 69.59, 530: 81.73, 540: 88.19}` of the source's
analysis function. -/
def spd_test : SpectralPowerDistribution :=
  ⟨"Spd", [(510, 49.67), (520, 69.59), (530, 81.73), (540, 88.19)]⟩

/-! Theorems for the claims. -/

/-- C3: for every `x` and `Y`, `xyY_to_XYZ` applied to `[x, 0, Y]`
(chromaticity `y` exactly zero) returns the zero vector `[0, 0, 0]`; the
function is total, so nothing is raised (the division the other branch
would perform is suppressed by the `np.where` selection and the
`divide='ignore'` policy). -/
theorem spec_C3 (x Y : ℚ) : xyY_to_XYZ_vectorise ⟨x, 0, Y⟩ = ⟨0, 0, 0⟩ := by
  simp [xyY_to_XYZ_vectorise]

/-- C5: for `CCT` in `[4000, 7000]` the low-temperature cubic polynomial
branch computes `x`; for `CCT > 7000` the high-temperature branch; at
exactly `CCT = 7000` the `<=` branch is selected deterministically (and
the two branches genuinely disagree there, so the selection is
observable). -/
theorem spec_C5 (CCT : ℚ) :
    (4000 ≤ CCT → CCT ≤ 7000 →
      (CCT_to_xy_CIE_D_vectorise CCT).1 = CCT_to_xy_CIE_D_xLow CCT) ∧
    (7000 < CCT →
      (CCT_to_xy_CIE_D_vectorise CCT).1 = CCT_to_xy_CIE_D_xHigh CCT) ∧
    (CCT_to_xy_CIE_D_vectorise 7000).1 = CCT_to_xy_CIE_D_xLow 7000 ∧
    CCT_to_xy_CIE_D_xLow 7000 ≠ CCT_to_xy_CIE_D_xHigh 7000 := by
  refine ⟨fun _ h2 => ?_, fun h => ?_, ?_, ?_⟩
  · simp [CCT_to_xy_CIE_D_vectorise, if_pos h2]
  · simp [CCT_to_xy_CIE_D_vectorise, if_neg (not_le.mpr h)]
  · simp [CCT_to_xy_CIE_D_vectorise]
  · with_unfolding_all decide

/-- C5 witness: the theorem applied at `CCT = 5000` (low branch) and
`CCT = 8000` (high branch). -/
theorem spec_C5_witness :
    (CCT_to_xy_CIE_D_vectorise 5000).1 = CCT_to_xy_CIE_D_xLow 5000 ∧
    (CCT_to_xy_CIE_D_vectorise 8000).1 = CCT_to_xy_CIE_D_xHigh 8000 :=
  ⟨(spec_C5 5000).1 (by norm_num) (by norm_num),
   (spec_C5 8000).2.1 (by norm_num)⟩

/-- C9: `XYZ_to_xyY` applies its zero test elementwise: each output
component takes the substitute (illuminant chromaticity for the first
two components, `Y` for the third) exactly when its own input component
is zero, and the computed quotient otherwise — so a single zero
component (with the others non-zero) is substituted on its own, not only
the all-zero input. -/
theorem spec_C9 (XYZ : Vec3) (illuminant : ℚ × ℚ) :
    (XYZ.x = 0 → (XYZ_to_xyY_vectorise XYZ illuminant).x = illuminant.1) ∧
    (XYZ.x ≠ 0 → (XYZ_to_xyY_vectorise XYZ illuminant).x =
      XYZ.x / (XYZ.x + XYZ.y + XYZ.z)) ∧
    (XYZ.y = 0 → (XYZ_to_xyY_vectorise XYZ illuminant).y = illuminant.2) ∧
    (XYZ.y ≠ 0 → (XYZ_to_xyY_vectorise XYZ illuminant).y =
      XYZ.y / (XYZ.x + XYZ.y + XYZ.z)) ∧
    (XYZ_to_xyY_vectorise XYZ illuminant).z = XYZ.y := by
  refine ⟨fun h => by simp [XYZ_to_xyY_vectorise, h],
    fun h => by simp [XYZ_to_xyY_vectorise, h],
    fun h => by simp [XYZ_to_xyY_vectorise, h],
    fun h => by simp [XYZ_to_xyY_vectorise, h],
    by simp [XYZ_to_xyY_vectorise]⟩

/-- C9 witness: the theorem applied at `X = 0`, `Y = 0.1008`,
`Z = 0.09558313` with the default D50 illuminant: the first output
component is the illuminant chromaticity while the second is still the
computed quotient. -/
theorem spec_C9_witness :
    (XYZ_to_xyY_vectorise ⟨0, 0.1008, 0.09558313⟩ ILLUMINANTS_D50).x =
      ILLUMINANTS_D50.1 ∧
    (XYZ_to_xyY_vectorise ⟨0, 0.1008, 0.09558313⟩ ILLUMINANTS_D50).y =
      (0.1008 : ℚ) / (0 + 0.1008 + 0.09558313) :=
  ⟨(spec_C9 ⟨0, 0.1008, 0.09558313⟩ ILLUMINANTS_D50).1 rfl,
   (spec_C9 ⟨0, 0.1008, 0.09558313⟩ ILLUMINANTS_D50).2.2.2.1
     (by with_unfolding_all decide)⟩

/-- C7: an unregistered transform name makes the von Kries adaptation
matrix computation fail with the configuration error that carries the
attempted name and enumerates the registered names — the error value
does not depend on the white points, so the failure happens at lookup
time before any array computation — while every registered name
succeeds. -/
theorem spec_C7 (transform : String) (XYZ_w XYZ_wr : Vec3) :
    (lookupTransform transform = none →
      chromatic_adaptation_matrix_VonKries_vectorise XYZ_w XYZ_wr transform =
        .error ⟨transform, registeredTransformNames⟩) ∧
    (lookupTransform transform ≠ none →
      (chromatic_adaptation_matrix_VonKries_vectorise XYZ_w XYZ_wr
        transform).isOk = true) := by
  constructor <;> intro h <;>
    cases hM : lookupTransform transform <;>
      simp_all [chromatic_adaptation_matrix_VonKries_vectorise, Except.isOk,
        Except.toBool]

/-- C7 witness: the theorem applied to the unregistered name `"Unknown"`
and the registered name `"bradford"` (case-insensitive lookup). -/
theorem spec_C7_witness :
    chromatic_adaptation_matrix_VonKries_vectorise ⟨1, 1, 1⟩ ⟨1, 1, 1⟩
      "Unknown" = .error ⟨"Unknown", registeredTransformNames⟩ ∧
    (chromatic_adaptation_matrix_VonKries_vectorise ⟨1, 1, 1⟩ ⟨1, 1, 1⟩
      "bradford").isOk = true :=
  ⟨(spec_C7 "Unknown" ⟨1, 1, 1⟩ ⟨1, 1, 1⟩).1 (by decide),
   (spec_C7 "bradford" ⟨1, 1, 1⟩ ⟨1, 1, 1⟩).2 (by decide)⟩

/-- Dictionary access at a present key returns the stored value: the
association-list lookup finds exactly the stored pair when the
wavelengths are unique. -/
theorem dictGet_of_mem {data : List (ℚ × ℚ)} {w v : ℚ}
    (hnd : (data.map Prod.fst).Nodup) (hmem : (w, v) ∈ data) :
    dictGet data w = some v := by
  induction data with
  | nil => simp at hmem
  | cons p rest ih =>
    rw [List.map_cons, List.nodup_cons] at hnd
    rcases List.mem_cons.mp hmem with heq | hrest
    · subst heq
      simp [dictGet]
    · have hne : p.1 ≠ w := by
        intro hc
        exact hnd.1 (hc ▸ List.mem_map_of_mem Prod.fst hrest)
      have hstep : dictGet (p :: rest) w = dictGet rest w := by
        simp [dictGet, List.find?_cons_of_neg, hne]
      rw [hstep]
      exact ih hnd.2 hrest

/-- The iterable branch of `__getitem__` maps the dictionary access over
the queried wavelengths, yielding the parallel stored values. -/
theorem dictGetAll_of_forall₂ {data : List (ℚ × ℚ)}
    (hnd : (data.map Prod.fst).Nodup) :
    ∀ {ws vs : List ℚ}, List.Forall₂ (fun w v => (w, v) ∈ data) ws vs →
      dictGetAll data ws = Except.ok vs := by
  intro ws vs hf
  induction hf with
  | nil => rfl
  | cons hwv _ ih =>
    rw [dictGetAll, dictGet_of_mem hnd hwv, ih]
    rfl

/-- C2: for every SPD (with its unique-wavelength invariant) and every
wavelength that is an existing key, scalar indexing returns the stored
value verbatim — the dictionary access path, no interpolation. -/
theorem spec_C2 (spd : SpectralPowerDistribution) (w v : ℚ)
    (hnd : (spd.data.map Prod.fst).Nodup) (hmem : (w, v) ∈ spd.data) :
    SpectralPowerDistribution__getitem__ spd (.num w) = .ok (.scalar v) := by
  simp [SpectralPowerDistribution__getitem__, dictGet_of_mem hnd hmem]

/-- C2 witness: the theorem applied to the SPD built from
`{510: 49.67, 520: 69.59, 530: 81.73, 540: 88.19}` at wavelength `520`,
returning exactly `69.59`. -/
theorem spec_C2_witness :
    SpectralPowerDistribution__getitem__ spd_test (.num 520) =
      .ok (.scalar 69.59) :=
  spec_C2 spd_test 520 69.59 (by norm_num [spd_test]) (by simp [spd_test])

/-- C6: SPD indexing is asymmetric by index species: a numeric index
addresses the mapping by wavelength value and returns the stored value;
an iterable of wavelengths returns the parallel array of stored values
(again addressed by wavelength); a slice indexes into the ordered
`values` sequence by position, not by wavelength. -/
theorem spec_C6 (spd : SpectralPowerDistribution)
    (hnd : (spd.data.map Prod.fst).Nodup) :
    (∀ w v, (w, v) ∈ spd.data →
      SpectralPowerDistribution__getitem__ spd (.num w) = .ok (.scalar v)) ∧
    (∀ ws vs, List.Forall₂ (fun w v => (w, v) ∈ spd.data) ws vs →
      SpectralPowerDistribution__getitem__ spd (.iter ws) = .ok (.array vs)) ∧
    (∀ a b, SpectralPowerDistribution__getitem__ spd (.slice a b) =
      .ok (.array (pySlice (SPD_values spd) a b))) := by
  refine ⟨?_, ?_, fun a b => rfl⟩
  · intro w v hmem
    simp [SpectralPowerDistribution__getitem__, dictGet_of_mem hnd hmem]
  · intro ws vs hf
    simp [SpectralPowerDistribution__getitem__, dictGetAll_of_forall₂ hnd hf,
      Except.map]

/-- C6 witness: the theorem applied to the test SPD: wavelength `530`
returns its stored value, the iterable `(510, 520)` the parallel array,
and the slice `[0:2]` the first two positions of the ordered values —
positional, the wavelengths `0` and `1` being no keys at all. -/
theorem spec_C6_witness :
    SpectralPowerDistribution__getitem__ spd_test (.num 530) =
      .ok (.scalar 81.73) ∧
    SpectralPowerDistribution__getitem__ spd_test (.iter [510, 520]) =
      .ok (.array [49.67, 69.59]) ∧
    SpectralPowerDistribution__getitem__ spd_test
      (.slice (some 0) (some 2)) =
      .ok (.array (pySlice (SPD_values spd_test) (some 0) (some 2))) := by
  have h := spec_C6 spd_test (by norm_num [spd_test])
  exact ⟨h.1 530 81.73 (by simp [spd_test]),
    h.2.1 [510, 520] [49.67, 69.59]
      (by refine List.Forall₂.cons ?_ (List.Forall₂.cons ?_ List.Forall₂.nil) <;>
        simp [spd_test]),
    h.2.2 (some 0) (some 2)⟩

/-- C4: a wavelength query whose minimum lies below the colour-matching
functions' shape start, or whose maximum lies above the shape end, makes
the tristimulus lookup fail with the domain error identifying the
offending wavelength array (and the domain bounds of the message), while
a query entirely inside the tabulated shape always succeeds. -/
theorem spec_C4 (cmfs : TriSpectralPowerDistribution) (ws : List ℚ)
    (hne : ws ≠ []) :
    ((listMin ws < cmfs.shape.start ∨ listMax ws > cmfs.shape.end_) →
      wavelength_to_XYZ_vectorise ws cmfs =
        .error ⟨ws, cmfs.shape.start, cmfs.shape.end_⟩) ∧
    ((cmfs.shape.start ≤ listMin ws ∧ listMax ws ≤ cmfs.shape.end_) →
      (wavelength_to_XYZ_vectorise ws cmfs).isOk = true) := by
  constructor
  · intro h
    simp [wavelength_to_XYZ_vectorise, if_pos h]
  · rintro ⟨h1, h2⟩
    have hcond : ¬ (listMin ws < cmfs.shape.start ∨
        listMax ws > cmfs.shape.end_) := by
      push_neg
      exact ⟨h1, h2⟩
    rw [wavelength_to_XYZ_vectorise, if_neg hcond]
    split <;> rfl

/-- C4 witness: a colour-matching-function table shaped `[360, 830]`; the
query `[200]` falls below the start and yields the domain error, the
query `[400]` lies inside and succeeds. -/
theorem spec_C4_witness :
    wavelength_to_XYZ_vectorise [200]
      ⟨⟨360, 830⟩, [360, 400], fun _ => ⟨0, 0, 0⟩, fun _ => ⟨0, 0, 0⟩⟩ =
      .error ⟨[200], 360, 830⟩ ∧
    (wavelength_to_XYZ_vectorise [400]
      ⟨⟨360, 830⟩, [360, 400], fun _ => ⟨0, 0, 0⟩, fun _ => ⟨0, 0, 0⟩⟩).isOk =
      true :=
  ⟨(spec_C4 ⟨⟨360, 830⟩, [360, 400], fun _ => ⟨0, 0, 0⟩, fun _ => ⟨0, 0, 0⟩⟩
      [200] (by simp)).1 (Or.inl (by norm_num [listMin])),
   (spec_C4 ⟨⟨360, 830⟩, [360, 400], fun _ => ⟨0, 0, 0⟩, fun _ => ⟨0, 0, 0⟩⟩
      [400] (by simp)).2 ⟨by norm_num [listMin], by norm_num [listMax]⟩⟩

/-- Row count of the `(-1, 3)` reshape. -/
theorem rows3_length : ∀ l : List ℚ, (rows3 l).length = l.length / 3
  | [] => by simp [rows3]
  | [a] => by simp [rows3]
  | [a, b] => by simp [rows3]
  | a :: b :: c :: rest => by
    rw [rows3, List.length_cons, rows3_length rest]
    simp only [List.length_cons]
    omega

/-- Element count of flattening rows of three. -/
theorem flatten3_length : ∀ l : List Vec3, (flatten3 l).length = 3 * l.length
  | [] => by simp [flatten3]
  | v :: rest => by
    rw [flatten3]
    simp only [List.length_cons, flatten3_length rest]
    ring

/-- C8: the XYZ/RGB-family transforms preserve the input's shape exactly
for rank 1 (single colour), rank 2 (batch) and rank 3 (image) inputs with
trailing channel count 3: the output carries the input's shape (the
output channel count, also 3, substituted for the input one) and its data
exactly fills that shape, shown here for `XYZ_to_RGB_vectorise` and
`Lab_to_XYZ_vectorise`. -/
theorem spec_C8 (x : NDArr) (illuminant_XYZ illuminant_RGB illuminant : ℚ × ℚ)
    (M : Mat3) (transform : String) (tf : Option (ℚ → ℚ))
    (hreg : lookupTransform transform ≠ none)
    (hlen : x.data.length = x.shape.prod)
    (hrank : x.shape = [3] ∨ (∃ n, x.shape = [n, 3]) ∨
      (∃ h w, x.shape = [h, w, 3])) :
    (∃ out, XYZ_to_RGB_vectorise x illuminant_XYZ illuminant_RGB M transform
        tf = .ok out ∧ out.shape = x.shape ∧ out.data.length = x.data.length) ∧
    ((Lab_to_XYZ_vectorise x illuminant).shape = x.shape ∧
      (Lab_to_XYZ_vectorise x illuminant).data.length = x.data.length) := by
  have hdvd : 3 ∣ x.data.length := by
    rcases hrank with h | ⟨n, h⟩ | ⟨a, b, h⟩ <;> rw [h] at hlen <;>
      simp at hlen
    · omega
    · omega
    · exact hlen ▸ ⟨a * b, by ring⟩
  constructor
  · rw [XYZ_to_RGB_vectorise]
    cases hM : lookupTransform transform with
    | none => exact absurd hM hreg
    | some Mcat =>
      rw [chromatic_adaptation_matrix_VonKries_vectorise, hM]
      refine ⟨_, rfl, rfl, ?_⟩
      cases tf <;>
        simp [flatten3_length, List.length_map, rows3_length] <;> omega
  · refine ⟨rfl, ?_⟩
    simp [Lab_to_XYZ_vectorise, flatten3_length, List.length_map,
      rows3_length]
    omega

/-- C8 witness: the theorem applied to a rank-2 batch of two rows (shape
`[2, 3]`, six data entries) under the Bradford transform. -/
theorem spec_C8_witness :
    (∃ out, XYZ_to_RGB_vectorise ⟨[2, 3], [1, 2, 3, 4, 5, 6]⟩ W1 W2
        M_XYZ_to_RGB "Bradford" none = .ok out ∧ out.shape = [2, 3] ∧
        out.data.length = 6) ∧
    ((Lab_to_XYZ_vectorise ⟨[2, 3], [1, 2, 3, 4, 5, 6]⟩
        ILLUMINANTS_D50).shape = [2, 3] ∧
      (Lab_to_XYZ_vectorise ⟨[2, 3], [1, 2, 3, 4, 5, 6]⟩
        ILLUMINANTS_D50).data.length = 6) :=
  spec_C8 ⟨[2, 3], [1, 2, 3, 4, 5, 6]⟩ W1 W2 ILLUMINANTS_D50 M_XYZ_to_RGB
    "Bradford" none (by decide) (by decide)
    (Or.inr (Or.inl ⟨2, rfl⟩))

/-- C1: converting `XYZ = [0.07049534, 0.1008, 0.09558313]` to RGB with
`XYZ_to_RGB(XYZ, W1, W2, M, "Bradford")` and back with
`RGB_to_XYZ(result, W2, W1, M_inv, "Bradford")` returns the original
tristimulus row within `1e-6` in every component, on the source's
published sRGB matrix pair (mutual inverses up to their printed
rounding): evaluated exactly, the two adaptation matrices cancel and the
residual comes only from `M_inv . M` differing from the identity in the
eighth decimal. -/
theorem spec_C1 :
    (match XYZ_to_RGB_vectorise XYZ_testRow W1 W2 M_XYZ_to_RGB "Bradford"
        none with
      | .error _ => false
      | .ok RGB =>
        match RGB_to_XYZ_vectorise RGB W2 W1 M_RGB_to_XYZ "Bradford"
            none with
        | .error _ => false
        | .ok out =>
          out.shape == [3] &&
            allClose out.data XYZ_testRow.data (1 / 1000000)) = true := by
  with_unfolding_all decide

/-- C10: the vectorised CIE 1994 colour difference defaults to
`textiles=True` while the reference implementation defaults to
`textiles=False`, so the two defaults disagree already on the Lab pair
`(1, 0, 0)`, `(0, 0, 0)`; called with the same explicit `textiles` flag
the two functions compute the same formula and agree on every Lab
pair. -/
theorem spec_C10 :
    delta_E_CIE1994_vectorise_default (1, 0, 0) (0, 0, 0) ≠
      delta_E_CIE1994_default (1, 0, 0) (0, 0, 0) ∧
    ∀ (Lab1 Lab2 : ℝ × ℝ × ℝ) (textiles : Bool),
      delta_E_CIE1994_vectorise Lab1 Lab2 textiles =
        delta_E_CIE1994 Lab1 Lab2 textiles := by
  constructor
  · have hzero : Real.sqrt ((0 : ℝ) ^ 2 + 0 ^ 2) = 0 := by
      norm_num
    have hv : delta_E_CIE1994_vectorise_default (1, 0, 0) (0, 0, 0) =
        1 / 2 := by
      rw [delta_E_CIE1994_vectorise_default, delta_E_CIE1994_vectorise]
      simp only [hzero]
      norm_num
      rw [show (4 : ℝ) = 2 ^ 2 by norm_num,
        Real.sqrt_sq (by norm_num : (0 : ℝ) ≤ 2)]
      norm_num
    have hr : delta_E_CIE1994_default (1, 0, 0) (0, 0, 0) = 1 := by
      rw [delta_E_CIE1994_default, delta_E_CIE1994]
      simp only [hzero]
      norm_num
    rw [hv, hr]
    norm_num
  · intro Lab1 Lab2 textiles
    rfl

end Colour
